import Mathlib

/-!
Shallow embedding of the autommo core: the slot analyzer
(`src/src/analysis/slot_analyzer.py`), the key sender
(`src/src/automation/key_sender.py`) and the capture-plan computation
(`src/src/main.py`, `CaptureWorker._capture_plan`), together with proofs
of the specified properties.

Conventions of the embedding:
* Python ints are `Int` (or `Nat` where the source only ever produces
  naturals, e.g. slot indices from `range(count)`).
* Python floats (times, brightnesses, thresholds) are `ℚ`.
* numpy image buffers are `List (List Pixel)` (rows of BGR pixels);
  numpy slicing `a[y1:y2, x1:x2]` is `pySlice` applied to rows and columns.
* External collaborators (the foreground-window check, the `keyboard.send`
  call which may raise, and `time.time()`) are inputs bundled in `SendEnv`.
-/

namespace Autommo

/-! ### Data model

The data classes live in `src.models.slot`, which is not under `src/`
(only `src/src/models/__init__.py`, which re-exports it, is).  Modelled
from the spec: §3 "DATA MODEL" and §4.3 (the `SlotState` member list),
together with how the fields are used by `slot_analyzer.py`,
`key_sender.py` and `main.py`. -/

/-- Modelled from the spec: the `SlotState` enum of `src.models.slot`
(missing from `src/`); spec §4.3 lists the members
`Unknown, Ready, OnCooldown, Gcd, Casting, Channeling, Locked`. -/
inductive SlotState where
  | unknown
  | ready
  | onCooldown
  | gcd
  | casting
  | channeling
  | locked
deriving DecidableEq, Repr

/-- Modelled from the spec: `SlotConfig` of `src.models.slot` (missing from
`src/`); spec §3: `index`, `x_offset, y_offset, width, height`. -/
structure SlotConfig where
  index : Nat
  x_offset : Int
  y_offset : Int
  width : Int
  height : Int
deriving DecidableEq, Repr

/-- Modelled from the spec: `SlotSnapshot` of `src.models.slot` (missing
from `src/`), restricted to the fields `slot_analyzer.py` actually writes:
`index`, `state`, `brightness`, `cooldown_remaining`, `timestamp`. -/
structure SlotSnapshot where
  index : Nat
  state : SlotState
  brightness : ℚ
  cooldown_remaining : Option ℚ
  timestamp : ℚ
deriving DecidableEq, Repr

/-- Modelled from the spec: `ActionBarState` of `src.models.slot` (missing
from `src/`); spec §3: a sequence of `SlotSnapshot` plus a timestamp. -/
structure ActionBarState where
  slots : List SlotSnapshot
  timestamp : ℚ
deriving DecidableEq, Repr

/-- Modelled from the spec: `BoundingBox` of `src.models.slot` (missing
from `src/`); constructed with keywords `top, left, width, height` in
`main.py`. -/
structure BoundingBox where
  top : Int
  left : Int
  width : Int
  height : Int
deriving DecidableEq, Repr

/-- The `cast_bar_region` dict of the config, with the `.get` defaults of
`_capture_plan` already applied (`enabled` defaults to `False`, the
geometry keys to `0`); an absent or empty dict is `enabled = false`. -/
structure CastBarRegion where
  enabled : Bool
  left : Int
  top : Int
  width : Int
  height : Int
deriving DecidableEq, Repr

/-- One entry of the `buff_rois` config list, with the `.get` defaults of
`_capture_plan` applied (`enabled` defaults to `True`, geometry to `0`).
The source skips entries that are not dicts; the typed model only carries
dict entries. -/
structure BuffRoi where
  enabled : Bool
  left : Int
  top : Int
  width : Int
  height : Int
deriving DecidableEq, Repr

/-- Modelled from the spec: the slice of `AppConfig` (in `src.models.slot`,
missing from `src/`) read by the slot analyzer, the key sender and the
capture plan.  `target_window_title` only feeds the external
foreground-window check, which is abstracted into `SendEnv.windowOk`. -/
structure AppConfig where
  bounding_box : BoundingBox
  slot_count : Int
  slot_gap_pixels : Int
  slot_padding : Int
  brightness_threshold : ℚ
  min_press_interval_ms : Int
  target_window_title : String
  cast_bar_region : CastBarRegion
  buff_rois : List BuffRoi

/-! ### Images and numpy-style slicing -/

/-- One BGR pixel of a captured frame (numpy `uint8` channels). -/
structure Pixel where
  b : Nat
  g : Nat
  r : Nat
deriving DecidableEq, Repr

/-- A captured frame: a list of rows of pixels. -/
abbrev Frame := List (List Pixel)

/-- Normalize one bound of a Python slice `a[start:stop]` for a sequence of
length `n`: negative indices count from the end, then clamp into `[0, n]`. -/
def pyBound (n : Nat) (i : Int) : Nat :=
  if i < 0 then ((n : Int) + i).toNat else min i.toNat n

/-- Python / numpy slice `xs[start:stop]` (step 1). -/
def pySlice {α : Type} (xs : List α) (start stop : Int) : List α :=
  let s := pyBound xs.length start
  let e := pyBound xs.length stop
  (xs.drop s).take (e - s)

/-! ### Slot analyzer (`src/src/analysis/slot_analyzer.py`) -/

/-- The `i`-th slot rectangle of `SlotAnalyzer._recompute_slot_layout`:
`slot_w = max(1, (total_width - (count-1)*gap) // count)` (Python floor
division, hence `Int.fdiv`), `x = i * (slot_w + gap)`. -/
def mk_slot (cfg : AppConfig) (i : Nat) : SlotConfig :=
  let total_width := cfg.bounding_box.width
  let gap := cfg.slot_gap_pixels
  let count := cfg.slot_count
  let slot_w := max 1 (Int.fdiv (total_width - (count - 1) * gap) count)
  { index := i
    x_offset := (i : Int) * (slot_w + gap)
    y_offset := 0
    width := slot_w
    height := cfg.bounding_box.height }

/-- `SlotAnalyzer._slot_configs` after `_recompute_slot_layout`: one
`SlotConfig` per `i in range(count)`. -/
def slot_configs (cfg : AppConfig) : List SlotConfig :=
  (List.range cfg.slot_count.toNat).map (mk_slot cfg)

/-- `SlotAnalyzer.crop_slot`: inset the slot rectangle by `slot_padding`
on all sides (clamped to size ≥ 1) and slice it out of the frame. -/
def crop_slot (cfg : AppConfig) (frame : Frame) (slot : SlotConfig) : Frame :=
  let pad := cfg.slot_padding
  let x1 := slot.x_offset + pad
  let y1 := slot.y_offset + pad
  let w := max 1 (slot.width - 2 * pad)
  let h := max 1 (slot.height - 2 * pad)
  (pySlice frame y1 (y1 + h)).map (fun row => pySlice row x1 (x1 + w))

/-- OpenCV `cvtColor(..., COLOR_BGR2GRAY)` on `uint8` data: the fixed-point
formula `(4899*R + 9617*G + 1868*B + 8192) >> 14`. -/
def gray (p : Pixel) : Nat :=
  (4899 * p.r + 9617 * p.g + 1868 * p.b + 8192) / 16384

/-- `SlotAnalyzer.compute_brightness`: `np.mean(gray) / 255`. -/
def compute_brightness (img : Frame) : ℚ :=
  let px := img.flatten
  (((px.map gray).sum : ℚ) / (px.length : ℚ)) / 255

/-- The per-slot body of `SlotAnalyzer.analyze_frame`: crop, measure
brightness, classify against the stored baseline. -/
def analyze_slot (cfg : AppConfig) (baselines : Nat → Option ℚ) (frame : Frame)
    (now : ℚ) (sc : SlotConfig) : SlotSnapshot :=
  let brightness := compute_brightness (crop_slot cfg frame sc)
  let state :=
    match baselines sc.index with
    | none => SlotState.unknown
    | some baseline =>
      if brightness < baseline * cfg.brightness_threshold then SlotState.onCooldown
      else SlotState.ready
  { index := sc.index
    state := state
    brightness := brightness
    cooldown_remaining := none
    timestamp := now }

/-- `SlotAnalyzer.analyze_frame`.  `baselines` is the `_baselines` dict
(read-only here, as in the source); `now` is the single `time.time()`
sample taken at the top of the call. -/
def analyze_frame (cfg : AppConfig) (baselines : Nat → Option ℚ) (frame : Frame)
    (now : ℚ) : ActionBarState :=
  { slots := (slot_configs cfg).map (analyze_slot cfg baselines frame now)
    timestamp := now }

/-! ### Key sender (`src/src/automation/key_sender.py`) -/

/-- Python `str.strip()` (whitespace strip from both ends), defined by
structural recursion over the character list so that it evaluates by
`decide`/`rfl` on literals. -/
def pyStrip (s : String) : String :=
  ⟨((s.data.dropWhile Char.isWhitespace).reverse.dropWhile Char.isWhitespace).reverse⟩

/-- `KeySender`'s only mutable state: `_last_send_time` (seconds, a
`time.time()` value; `0.0` initially). -/
structure KeySenderState where
  lastSendTime : ℚ
deriving DecidableEq, Repr

/-- The `queued_override` dict handed to `evaluate_and_send`: `.get`
lookups of `source`, `key` and `slot_index`.  `None` in Python is the
absent `evaluate_and_send` argument; an empty dict is also falsy there and
is likewise modelled as the absent entry. -/
structure QueueEntry where
  source : Option String
  key : Option String
  slot_index : Option Nat
deriving DecidableEq, Repr

/-- The external collaborators of one `evaluate_and_send` call: the
`time.time()` sample `now`, the foreground-window check (deterministic
during the call, so one flag serves both call sites), and whether
`keyboard.send k` succeeds (`false` = raises). -/
structure SendEnv where
  now : ℚ
  windowOk : Bool
  sendOk : String → Bool

/-- The result dict of `evaluate_and_send`.  Optional fields model keys
absent from the dict; `queued := false` models an absent `"queued"` key. -/
structure KeyAction where
  keybind : String
  action : String
  reason : Option String
  timestamp : Option ℚ
  slot_index : Option Nat
  queued : Bool
deriving DecidableEq, Repr

/-- One call's outcome: the returned value, the updated `KeySender` state,
and whether the `on_queued_sent` callback (queue clear) was invoked. -/
structure SendOutcome where
  result : Option KeyAction
  state : KeySenderState
  queueCleared : Bool
deriving DecidableEq, Repr

/-- `(getattr(config, "min_press_interval_ms", 150) or 150)`: the config
value, except that `0` (Python falsy) falls back to `150`. -/
def effective_interval_ms (cfg : AppConfig) : Int :=
  if cfg.min_press_interval_ms = 0 then 150 else cfg.min_press_interval_ms

/-- `min_interval_sec` of `evaluate_and_send`: the effective interval in
seconds. -/
def min_interval_sec (cfg : AppConfig) : ℚ :=
  (effective_interval_ms cfg : ℚ) / 1000

/-- The dict `{s.index: s for s in slots}` looked up at `i`: on duplicate
indices the later entry wins, hence the search over the reversed list. -/
def slots_by_index_get (slots : List SlotSnapshot) (i : Nat) : Option SlotSnapshot :=
  slots.reverse.find? (fun s => s.index == i)

/-- The queued-override block of `evaluate_and_send` (lines 80–114).
`none` means neither branch returned and control falls through to the
priority walk (which happens exactly when the entry is neither a
whitelist entry with a non-blank key nor a tracked entry). -/
def handle_queued (st : KeySenderState) (env : SendEnv) (slots : List SlotSnapshot)
    (q : QueueEntry) (m_ok w_ok : Prop) [Decidable m_ok] [Decidable w_ok] :
    Option SendOutcome :=
  if q.source = some "whitelist" ∧ pyStrip (q.key.getD "") ≠ "" then
    some (if m_ok ∧ w_ok then
            if env.sendOk (pyStrip (q.key.getD "")) then
              ⟨some ⟨pyStrip (q.key.getD ""), "sent", none, some env.now, none, true⟩,
                ⟨env.now⟩, true⟩
            else ⟨none, st, false⟩
          else ⟨none, st, false⟩)
  else if q.source = some "tracked" then
    some (match q.slot_index with
          | some si =>
            if pyStrip (q.key.getD "") ≠ "" then
              match slots_by_index_get slots si with
              | some slot =>
                if slot.state = SlotState.ready ∧ m_ok ∧ w_ok then
                  if env.sendOk (pyStrip (q.key.getD "")) then
                    ⟨some ⟨pyStrip (q.key.getD ""), "sent", none, some env.now, some si, true⟩,
                      ⟨env.now⟩, true⟩
                  else ⟨none, st, false⟩
                else ⟨none, st, false⟩
              | none => ⟨none, st, false⟩
            else ⟨none, st, false⟩
          | none => ⟨none, st, false⟩)
  else none

/-- The priority walk of `evaluate_and_send` (lines 119–143): first slot in
`priority_order` that exists, is `READY` and has a non-blank keybind is
acted on; `keybinds[i]` out of range is `None`, i.e. a blank bind. -/
def send_priority (st : KeySenderState) (env : SendEnv) (slots : List SlotSnapshot)
    (keybinds : List String) : List Nat → Option KeyAction × KeySenderState
  | [] => (none, st)
  | i :: rest =>
    match slots_by_index_get slots i with
    | none => send_priority st env slots keybinds rest
    | some slot =>
      if slot.state ≠ SlotState.ready then send_priority st env slots keybinds rest
      else
        let kb := pyStrip (keybinds[i]?.getD "")
        if kb = "" then send_priority st env slots keybinds rest
        else if env.windowOk = false then
          (some ⟨kb, "blocked", some "window", none, some i, false⟩, st)
        else if env.sendOk kb then
          (some ⟨kb, "sent", none, some env.now, some i, false⟩, ⟨env.now⟩)
        else (none, st)

/-- Lines 116–143: bail out when the minimum interval has not elapsed,
else walk the priority list. -/
def priority_phase (st : KeySenderState) (env : SendEnv) (slots : List SlotSnapshot)
    (keybinds : List String) (prio : List Nat) (m_ok : Prop) [Decidable m_ok] :
    SendOutcome :=
  if m_ok then
    ⟨(send_priority st env slots keybinds prio).1,
      (send_priority st env slots keybinds prio).2, false⟩
  else ⟨none, st, false⟩

/-- `KeySender.evaluate_and_send`. -/
def evaluate_and_send (cfg : AppConfig) (st : KeySenderState) (env : SendEnv)
    (state : ActionBarState) (priority_order : List Nat) (keybinds : List String)
    (automation_enabled : Bool) (queued_override : Option QueueEntry) : SendOutcome :=
  if automation_enabled = false then ⟨none, st, false⟩
  else
    match queued_override with
    | some q =>
      match handle_queued st env state.slots q
          (min_interval_sec cfg ≤ env.now - st.lastSendTime) (env.windowOk = true) with
      | some out => out
      | none =>
        priority_phase st env state.slots keybinds priority_order
          (min_interval_sec cfg ≤ env.now - st.lastSendTime)
    | none =>
      priority_phase st env state.slots keybinds priority_order
        (min_interval_sec cfg ≤ env.now - st.lastSendTime)

/-- Does a call outcome report a key as sent? -/
def is_sent (r : Option KeyAction) : Bool :=
  match r with
  | some a => a.action == "sent"
  | none => false

/-- Is slot `i` an eligible priority candidate: bound to an existing
`READY` slot and carrying a non-blank keybind? -/
def priority_eligible (slots : List SlotSnapshot) (keybinds : List String) (i : Nat) : Bool :=
  match slots_by_index_get slots i with
  | some s => s.state == SlotState.ready && pyStrip (keybinds[i]?.getD "") != ""
  | none => false

/-! ### Capture plan (`src/src/main.py`, `CaptureWorker._capture_plan`) -/

/-- An axis-aligned rectangle in edge coordinates. -/
structure Rect where
  left : Int
  top : Int
  right : Int
  bottom : Int
deriving DecidableEq, Repr

/-- Union step: the smallest rectangle containing both arguments. -/
def union_rect (a b : Rect) : Rect :=
  ⟨min a.left b.left, min a.top b.top, max a.right b.right, max a.bottom b.bottom⟩

/-- `r` contains `s`. -/
def rect_contains (r s : Rect) : Prop :=
  r.left ≤ s.left ∧ r.top ≤ s.top ∧ s.right ≤ r.right ∧ s.bottom ≤ r.bottom

/-- The rectangle of a region positioned at `(l, t)` relative to the
action-bar origin, with size `w × h`. -/
def roi_rect (ab : BoundingBox) (l t w h : Int) : Rect :=
  ⟨ab.left + l, ab.top + t, ab.left + l + w, ab.top + t + h⟩

/-- The action-bar rectangle itself. -/
def action_rect (ab : BoundingBox) : Rect :=
  ⟨ab.left, ab.top, ab.left + ab.width, ab.top + ab.height⟩

/-- The regions `_capture_plan` must cover: the action bar, the cast-bar
region when enabled and strictly larger than 1×1, and every enabled buff
ROI strictly larger than 1×1 (each positioned relative to the action-bar
origin). -/
def included_rects (cfg : AppConfig) : List Rect :=
  action_rect cfg.bounding_box ::
    ((if cfg.cast_bar_region.enabled = true ∧ 1 < cfg.cast_bar_region.width ∧
          1 < cfg.cast_bar_region.height then
        [roi_rect cfg.bounding_box cfg.cast_bar_region.left cfg.cast_bar_region.top
          cfg.cast_bar_region.width cfg.cast_bar_region.height]
      else []) ++
      (cfg.buff_rois.filter (fun r =>
          r.enabled && decide (1 < r.width) && decide (1 < r.height))).map
        (fun r => roi_rect cfg.bounding_box r.left r.top r.width r.height))

/-- The minimal axis-aligned rectangle covering `included_rects`. -/
def minimal_cover (cfg : AppConfig) : Rect :=
  ((if cfg.cast_bar_region.enabled = true ∧ 1 < cfg.cast_bar_region.width ∧
        1 < cfg.cast_bar_region.height then
      [roi_rect cfg.bounding_box cfg.cast_bar_region.left cfg.cast_bar_region.top
        cfg.cast_bar_region.width cfg.cast_bar_region.height]
    else []) ++
    (cfg.buff_rois.filter (fun r =>
        r.enabled && decide (1 < r.width) && decide (1 < r.height))).map
      (fun r => roi_rect cfg.bounding_box r.left r.top r.width r.height)).foldl
    union_rect (action_rect cfg.bounding_box)

/-- The monitor-bounds clamp of `_capture_plan` (lines 156–160): the
left/top edges are clamped into the monitor, then the right/bottom edges
are clamped while kept strictly beyond the clamped left/top. -/
def clamp_rect (mw mh : Int) (r : Rect) : Rect :=
  ⟨max 0 (min r.left (mw - 1)), max 0 (min r.top (mh - 1)),
    max (max 0 (min r.left (mw - 1)) + 1) (min r.right mw),
    max (max 0 (min r.top (mh - 1)) + 1) (min r.bottom mh)⟩

/-- Package a rectangle as the returned `BoundingBox` (lines 162–167). -/
def plan_bbox (r : Rect) : BoundingBox :=
  ⟨r.top, r.left, max 1 (r.right - r.left), max 1 (r.bottom - r.top)⟩

/-- `CaptureWorker._capture_plan`: grow the action-bar rectangle over the
enabled cast-bar region and buff ROIs, clamp to the monitor, and return
the capture box together with the action-bar origin inside it. -/
def capture_plan (cfg : AppConfig) (monitor_width monitor_height : Int) :
    BoundingBox × Int × Int :=
  let ab := cfg.bounding_box
  let s1 : Rect :=
    if cfg.cast_bar_region.enabled = true ∧ 1 < cfg.cast_bar_region.width ∧
        1 < cfg.cast_bar_region.height then
      ⟨min ab.left (ab.left + cfg.cast_bar_region.left),
        min ab.top (ab.top + cfg.cast_bar_region.top),
        max (ab.left + ab.width) (ab.left + cfg.cast_bar_region.left + cfg.cast_bar_region.width),
        max (ab.top + ab.height) (ab.top + cfg.cast_bar_region.top + cfg.cast_bar_region.height)⟩
    else ⟨ab.left, ab.top, ab.left + ab.width, ab.top + ab.height⟩
  let s2 : Rect := cfg.buff_rois.foldl
    (fun acc roi =>
      if roi.enabled = true ∧ 1 < roi.width ∧ 1 < roi.height then
        ⟨min acc.left (ab.left + roi.left), min acc.top (ab.top + roi.top),
          max acc.right (ab.left + roi.left + roi.width),
          max acc.bottom (ab.top + roi.top + roi.height)⟩
      else acc) s1
  let L := max 0 (min s2.left (monitor_width - 1))
  let T := max 0 (min s2.top (monitor_height - 1))
  let R := max (L + 1) (min s2.right monitor_width)
  let B := max (T + 1) (min s2.bottom monitor_height)
  (⟨T, L, max 1 (R - L), max 1 (B - T)⟩, ab.left - L, ab.top - T)

/-! ### Concrete sample inputs (used by the closed instances below) -/

/-- A disabled cast-bar region (absent or empty `cast_bar_region` dict). -/
def noCast : CastBarRegion := ⟨false, 0, 0, 0, 0⟩

/-- The configuration of the spec's scenarios: 10 slots over a 20×1
bounding box, no gap, no padding, threshold `0.6`, min interval 150 ms. -/
def cfgA : AppConfig :=
  ⟨⟨0, 0, 20, 1⟩, 10, 0, 0, 3/5, 150, "", noCast, []⟩

/-- A snapshot carrying only an index and a state. -/
def snapA (i : Nat) (s : SlotState) : SlotSnapshot := ⟨i, s, 0, none, 0⟩

/-- Slot 3 on cooldown, slots 1 and 5 ready. -/
def stateA : ActionBarState :=
  ⟨[snapA 1 SlotState.ready, snapA 3 SlotState.onCooldown, snapA 5 SlotState.ready], 0⟩

/-- Keybinds `1..6`; slot 1 is bound to `"2"`. -/
def keybindsA : List String := ["1", "2", "3", "4", "5", "6"]

/-- Environment: `now = 1`, window focused, injection succeeds. -/
def envT : SendEnv := ⟨1, true, fun _ => true⟩

/-- Environment: `now = 1`, window not focused, injection succeeds. -/
def envW : SendEnv := ⟨1, false, fun _ => true⟩

/-- Environment: `now = 1`, window focused, injection raises. -/
def envX : SendEnv := ⟨1, true, fun _ => false⟩

/-- The queued whitelist entry of the spec's scenario. -/
def queueWhite : QueueEntry := ⟨some "whitelist", some "r", none⟩

/-- A queued tracked entry bound to slot 1 with key `"2"`. -/
def queueTrack : QueueEntry := ⟨some "tracked", some "2", some 1⟩

/-- A queued tracked entry bound to slot 3 (on cooldown in `stateA`). -/
def queueTrack3 : QueueEntry := ⟨some "tracked", some "4", some 3⟩

/-- Environment for a second tick 50 ms after `envT`. -/
def envT2 : SendEnv := ⟨21/20, true, fun _ => true⟩

/-- A uniform gray pixel. -/
def gpx (v : Nat) : Pixel := ⟨v, v, v⟩

/-- The scenario frame: one row of 20 pixels; slot 2 (columns 4–5) averages
gray `76.5` (brightness `0.3`), all other slots are gray `204`
(brightness `0.8`). -/
def frameA : Frame :=
  [[gpx 204, gpx 204, gpx 204, gpx 204, gpx 76, gpx 77, gpx 204, gpx 204, gpx 204, gpx 204,
    gpx 204, gpx 204, gpx 204, gpx 204, gpx 204, gpx 204, gpx 204, gpx 204, gpx 204, gpx 204]]

/-- Baselines: every slot calibrated at brightness `0.8`. -/
def baselinesA : Nat → Option ℚ := fun _ => some (4/5)

/-- A 1×1 config with brightness threshold `1.5`. -/
def cfgB : AppConfig :=
  ⟨⟨0, 0, 1, 1⟩, 1, 0, 0, 3/2, 150, "", noCast, []⟩

/-- A single gray-102 pixel: brightness `102/255 = 0.4`. -/
def frameB : Frame := [[gpx 102]]

/-- Baseline `0.4` for every slot. -/
def baselinesB : Nat → Option ℚ := fun _ => some (2/5)

/-- A capture-plan configuration with an enabled cast bar and two buff
ROIs (one disabled). -/
def cfgC : AppConfig :=
  ⟨⟨100, 200, 300, 40⟩, 10, 2, 3, 3/5, 150, "",
    ⟨true, -50, 60, 120, 10⟩,
    [⟨true, 320, -20, 30, 30⟩, ⟨false, 900, 900, 50, 50⟩, ⟨true, 5, 5, 1, 40⟩]⟩

/-! ### General lemmas about the embedding -/

/-- Everything a slice returns was in the original list. -/
theorem pySlice_subset {α : Type} (xs : List α) (start stop : Int) :
    pySlice xs start stop ⊆ xs := by
  intro a ha
  unfold pySlice at ha
  exact List.drop_subset _ _ (List.take_subset _ _ ha)

/-! ### Key-sender lemmas -/

/-- One-step unfolding of `send_priority` on a non-empty priority list. -/
theorem send_priority_cons (st : KeySenderState) (env : SendEnv)
    (slots : List SlotSnapshot) (keybinds : List String) (i : Nat) (rest : List Nat) :
    send_priority st env slots keybinds (i :: rest) =
      match slots_by_index_get slots i with
      | none => send_priority st env slots keybinds rest
      | some slot =>
        if slot.state ≠ SlotState.ready then send_priority st env slots keybinds rest
        else
          if pyStrip (keybinds[i]?.getD "") = "" then send_priority st env slots keybinds rest
          else if env.windowOk = false then
            (some ⟨pyStrip (keybinds[i]?.getD ""), "blocked", some "window", none, some i, false⟩, st)
          else if env.sendOk (pyStrip (keybinds[i]?.getD "")) then
            (some ⟨pyStrip (keybinds[i]?.getD ""), "sent", none, some env.now, some i, false⟩,
              ⟨env.now⟩)
          else (none, st) := rfl

/-- An ineligible head of the priority list is skipped: the walk continues
on the tail with nothing changed. -/
theorem send_priority_skip (st : KeySenderState) (env : SendEnv)
    (slots : List SlotSnapshot) (keybinds : List String) (i : Nat) (rest : List Nat)
    (h : priority_eligible slots keybinds i = false) :
    send_priority st env slots keybinds (i :: rest) =
      send_priority st env slots keybinds rest := by
  unfold priority_eligible at h
  rw [send_priority_cons]
  cases hfind : slots_by_index_get slots i with
  | none => simp
  | some slot =>
    rw [hfind] at h
    by_cases hs : slot.state = SlotState.ready
    · have hk : pyStrip (keybinds[i]?.getD "") = "" := by
        by_contra hk
        simp [hs, hk] at h
      simp [hs, hk]
    · simp [hs]

/-- A whole prefix of ineligible entries is skipped. -/
theorem send_priority_skip_prefix (st : KeySenderState) (env : SendEnv)
    (slots : List SlotSnapshot) (keybinds : List String) (pre rest : List Nat)
    (h : ∀ j ∈ pre, priority_eligible slots keybinds j = false) :
    send_priority st env slots keybinds (pre ++ rest) =
      send_priority st env slots keybinds rest := by
  induction pre with
  | nil => rfl
  | cons j pre ih =>
    rw [List.cons_append,
      send_priority_skip st env slots keybinds j _ (h j (by simp)),
      ih (fun x hx => h x (by simp [hx]))]

/-- An eligible head of the priority list is acted on: blocked when the
window is not focused, sent when the injection succeeds, dropped when
it raises. -/
theorem send_priority_fire (st : KeySenderState) (env : SendEnv)
    (slots : List SlotSnapshot) (keybinds : List String) (i : Nat) (rest : List Nat)
    (slot : SlotSnapshot)
    (hfind : slots_by_index_get slots i = some slot)
    (hready : slot.state = SlotState.ready)
    (hkb : pyStrip (keybinds[i]?.getD "") ≠ "") :
    send_priority st env slots keybinds (i :: rest) =
      if env.windowOk = false then
        (some ⟨pyStrip (keybinds[i]?.getD ""), "blocked", some "window", none, some i, false⟩, st)
      else if env.sendOk (pyStrip (keybinds[i]?.getD "")) then
        (some ⟨pyStrip (keybinds[i]?.getD ""), "sent", none, some env.now, some i, false⟩,
          ⟨env.now⟩)
      else (none, st) := by
  rw [send_priority_cons, hfind]
  simp [hready, hkb]

/-- Case analysis of the priority walk: either nothing happened to the
gate state and any returned action is a block, or a key was sent, the
injection call succeeded, and `lastSendTime` was set to `now`. -/
theorem send_priority_cases (st : KeySenderState) (env : SendEnv)
    (slots : List SlotSnapshot) (keybinds : List String) (prio : List Nat) :
    ((send_priority st env slots keybinds prio).2 = st ∧
      ∀ a, (send_priority st env slots keybinds prio).1 = some a → a.action = "blocked") ∨
    ((send_priority st env slots keybinds prio).2 = ⟨env.now⟩ ∧
      ∃ a, (send_priority st env slots keybinds prio).1 = some a ∧ a.action = "sent" ∧
        env.sendOk a.keybind = true) := by
  induction prio with
  | nil => exact Or.inl ⟨rfl, by intro a ha; simp [send_priority] at ha⟩
  | cons i rest ih =>
    by_cases he : priority_eligible slots keybinds i = false
    · rw [send_priority_skip st env slots keybinds i rest he]
      exact ih
    · have he' : priority_eligible slots keybinds i = true := by
        cases h : priority_eligible slots keybinds i with
        | false => exact absurd h he
        | true => rfl
      unfold priority_eligible at he'
      cases hfind : slots_by_index_get slots i with
      | none => rw [hfind] at he'; simp at he'
      | some slot =>
        rw [hfind] at he'
        have hready : slot.state = SlotState.ready := by
          cases hs : slot.state <;> simp [hs] at he' ⊢
        have hkb : pyStrip (keybinds[i]?.getD "") ≠ "" := by
          intro hk
          simp [hk] at he'
        rw [send_priority_fire st env slots keybinds i rest slot hfind hready hkb]
        by_cases hw : env.windowOk = false
        · left
          refine ⟨by simp [hw], ?_⟩
          intro a ha
          simp [hw] at ha
          exact ha ▸ rfl
        · by_cases hsend : env.sendOk (pyStrip (keybinds[i]?.getD "")) = true
          · right
            refine ⟨by simp [hw, hsend], ?_⟩
            exact ⟨⟨pyStrip (keybinds[i]?.getD ""), "sent", none, some env.now, some i, false⟩,
              by simp [hw, hsend], rfl, hsend⟩
          · left
            refine ⟨?_, ?_⟩
            · simp [hw, hsend]
            · intro a ha
              simp [hw, hsend] at ha

/-- Case analysis of the queued-override block, given that it returned
(did not fall through): either it was a no-op on the gate state, or it
sent the queued key, which requires the interval gate to have passed and
records the send time. -/
theorem handle_queued_cases (st : KeySenderState) (env : SendEnv)
    (slots : List SlotSnapshot) (q : QueueEntry) (m_ok w_ok : Prop)
    [Decidable m_ok] [Decidable w_ok] (out : SendOutcome)
    (h : handle_queued st env slots q m_ok w_ok = some out) :
    out = ⟨none, st, false⟩ ∨
    (m_ok ∧ out.state = ⟨env.now⟩ ∧ ∃ a, out.result = some a ∧ a.action = "sent" ∧
      env.sendOk a.keybind = true) := by
  unfold handle_queued at h
  by_cases h1 : q.source = some "whitelist" ∧ (pyStrip (q.key.getD "")) ≠ ""
  · rw [if_pos h1] at h
    injection h with h
    by_cases h2 : m_ok ∧ w_ok
    · rw [if_pos h2] at h
      by_cases h3 : env.sendOk (pyStrip (q.key.getD "")) = true
      · rw [if_pos h3] at h
        right
        refine ⟨h2.1, by rw [← h],
          ⟨⟨pyStrip (q.key.getD ""), "sent", none, some env.now, none, true⟩, by rw [← h], rfl, h3⟩⟩
      · rw [if_neg h3] at h
        exact Or.inl h.symm
    · rw [if_neg h2] at h
      exact Or.inl h.symm
  · rw [if_neg h1] at h
    by_cases h4 : q.source = some "tracked"
    · rw [if_pos h4] at h
      injection h with h
      cases hsi : q.slot_index with
      | none =>
        simp only [hsi] at h
        exact Or.inl h.symm
      | some si =>
        simp only [hsi] at h
        by_cases h5 : (pyStrip (q.key.getD "")) ≠ ""
        · rw [if_pos h5] at h
          cases hfind : slots_by_index_get slots si with
          | none =>
            simp only [hfind] at h
            exact Or.inl h.symm
          | some slot =>
            simp only [hfind] at h
            by_cases h6 : slot.state = SlotState.ready ∧ m_ok ∧ w_ok
            · rw [if_pos h6] at h
              by_cases h7 : env.sendOk (pyStrip (q.key.getD "")) = true
              · rw [if_pos h7] at h
                right
                refine ⟨h6.2.1, by rw [← h],
                  ⟨⟨pyStrip (q.key.getD ""), "sent", none, some env.now, some si, true⟩,
                    by rw [← h], rfl, h7⟩⟩
              · rw [if_neg h7] at h
                exact Or.inl h.symm
            · rw [if_neg h6] at h
              exact Or.inl h.symm
        · rw [if_neg h5] at h
          exact Or.inl h.symm
    · rw [if_neg h4] at h
      simp at h

/-- Case analysis of the interval gate plus priority walk. -/
theorem priority_phase_outcome (st : KeySenderState) (env : SendEnv)
    (slots : List SlotSnapshot) (keybinds : List String) (prio : List Nat)
    (m_ok : Prop) [Decidable m_ok] :
    ((priority_phase st env slots keybinds prio m_ok).state = st ∧
      (priority_phase st env slots keybinds prio m_ok).queueCleared = false ∧
      ∀ a, (priority_phase st env slots keybinds prio m_ok).result = some a →
        a.action = "blocked") ∨
    (m_ok ∧ (priority_phase st env slots keybinds prio m_ok).state = ⟨env.now⟩ ∧
      ∃ a, (priority_phase st env slots keybinds prio m_ok).result = some a ∧
        a.action = "sent" ∧ env.sendOk a.keybind = true) := by
  unfold priority_phase
  by_cases hm : m_ok
  · rw [if_pos hm]
    rcases send_priority_cases st env slots keybinds prio with ⟨h2, h3⟩ | ⟨h2, a, h3, h4, h5⟩
    · exact Or.inl ⟨h2, rfl, h3⟩
    · exact Or.inr ⟨hm, h2, a, h3, h4, h5⟩
  · rw [if_neg hm]
    refine Or.inl ⟨rfl, rfl, ?_⟩
    intro a ha
    cases ha

/-- Case analysis of one whole `evaluate_and_send` call: either the gate
state is untouched, the queue-clear callback was not invoked and any
returned action is a block; or a key was sent, in which case the minimum
interval had elapsed, the injection call succeeded and `lastSendTime` was
set to this call's `now`. -/
theorem evaluate_and_send_outcome (cfg : AppConfig) (st : KeySenderState) (env : SendEnv)
    (state : ActionBarState) (prio : List Nat) (keybinds : List String)
    (auto : Bool) (q : Option QueueEntry) :
    ((evaluate_and_send cfg st env state prio keybinds auto q).state = st ∧
      (evaluate_and_send cfg st env state prio keybinds auto q).queueCleared = false ∧
      ∀ a, (evaluate_and_send cfg st env state prio keybinds auto q).result = some a →
        a.action = "blocked") ∨
    (min_interval_sec cfg ≤ env.now - st.lastSendTime ∧
      (evaluate_and_send cfg st env state prio keybinds auto q).state = ⟨env.now⟩ ∧
      ∃ a, (evaluate_and_send cfg st env state prio keybinds auto q).result = some a ∧
        a.action = "sent" ∧ env.sendOk a.keybind = true) := by
  unfold evaluate_and_send
  by_cases hauto : auto = false
  · rw [if_pos hauto]
    refine Or.inl ⟨rfl, rfl, ?_⟩
    intro a ha
    cases ha
  · rw [if_neg hauto]
    cases q with
    | none => exact priority_phase_outcome st env state.slots keybinds prio _
    | some qe =>
      cases hq : handle_queued st env state.slots qe
          (min_interval_sec cfg ≤ env.now - st.lastSendTime) (env.windowOk = true) with
      | none =>
        simp only [hq]
        exact priority_phase_outcome st env state.slots keybinds prio _
      | some out =>
        simp only [hq]
        rcases handle_queued_cases st env state.slots qe _ _ out hq with h | ⟨hm, h2, a, h3, h4, h5⟩
        · subst h
          refine Or.inl ⟨rfl, rfl, ?_⟩
          intro a ha
          cases ha
        · exact Or.inr ⟨hm, h2, a, h3, h4, h5⟩

/-- With automation on and no queue entry, the call is the interval gate
plus the priority walk. -/
theorem evaluate_and_send_auto_none (cfg : AppConfig) (st : KeySenderState) (env : SendEnv)
    (state : ActionBarState) (prio : List Nat) (keybinds : List String) :
    evaluate_and_send cfg st env state prio keybinds true none =
      priority_phase st env state.slots keybinds prio
        (min_interval_sec cfg ≤ env.now - st.lastSendTime) := rfl

/-- With automation on and a queue entry, the queue block runs first and
the priority walk only runs if it falls through. -/
theorem evaluate_and_send_auto_some (cfg : AppConfig) (st : KeySenderState) (env : SendEnv)
    (state : ActionBarState) (prio : List Nat) (keybinds : List String) (q : QueueEntry) :
    evaluate_and_send cfg st env state prio keybinds true (some q) =
      match handle_queued st env state.slots q
          (min_interval_sec cfg ≤ env.now - st.lastSendTime) (env.windowOk = true) with
      | some out => out
      | none =>
        priority_phase st env state.slots keybinds prio
          (min_interval_sec cfg ≤ env.now - st.lastSendTime) := rfl

/-- Unpack an eligibility witness. -/
theorem priority_eligible_elim (slots : List SlotSnapshot) (keybinds : List String) (i : Nat)
    (h : priority_eligible slots keybinds i = true) :
    ∃ s, slots_by_index_get slots i = some s ∧ s.state = SlotState.ready ∧
      pyStrip (keybinds[i]?.getD "") ≠ "" := by
  unfold priority_eligible at h
  cases hfind : slots_by_index_get slots i with
  | none => rw [hfind] at h; simp at h
  | some s =>
    rw [hfind] at h
    refine ⟨s, rfl, ?_, ?_⟩
    · cases hs : s.state <;> simp [hs] at h ⊢
    · intro hk
      simp [hk] at h

/-- Unpack a sent result. -/
theorem is_sent_elim (r : Option KeyAction) (h : is_sent r = true) :
    ∃ a, r = some a ∧ a.action = "sent" := by
  cases r with
  | none => simp [is_sent] at h
  | some a =>
    refine ⟨a, rfl, ?_⟩
    simpa [is_sent] using h

/-- The queued-override block is a gate-state no-op on each of the
ineligible shapes. -/
theorem handle_queued_returns_noop (st : KeySenderState) (env : SendEnv)
    (slots : List SlotSnapshot) (q : QueueEntry) (m_ok w_ok : Prop)
    [Decidable m_ok] [Decidable w_ok]
    (h : (q.source = some "whitelist" ∧ pyStrip (q.key.getD "") ≠ "" ∧ ¬(m_ok ∧ w_ok)) ∨
         (q.source = some "tracked" ∧
           (pyStrip (q.key.getD "") = "" ∨ q.slot_index = none ∨
            (∃ si, q.slot_index = some si ∧ slots_by_index_get slots si = none) ∨
            (∃ si slot, q.slot_index = some si ∧ slots_by_index_get slots si = some slot ∧
              slot.state ≠ SlotState.ready)))) :
    handle_queued st env slots q m_ok w_ok = some ⟨none, st, false⟩ := by
  unfold handle_queued
  rcases h with ⟨hsrc, hkey, hgate⟩ | ⟨hsrc, hbad⟩
  · rw [if_pos ⟨hsrc, hkey⟩, if_neg hgate]
  · rw [if_neg (by rintro ⟨hw, -⟩; rw [hsrc] at hw; simp at hw), if_pos hsrc]
    rcases hbad with hkey | hsi | ⟨si, hsi, hfind⟩ | ⟨si, slot, hsi, hfind, hnr⟩
    · cases hsi : q.slot_index with
      | none => simp only [hsi]
      | some si =>
        simp only [hsi]
        rw [if_neg (by simpa using hkey)]
    · simp only [hsi]
    · simp only [hsi]
      by_cases hkey : pyStrip (q.key.getD "") ≠ ""
      · rw [if_pos hkey]
        simp only [hfind]
      · rw [if_neg hkey]
    · simp only [hsi]
      by_cases hkey : pyStrip (q.key.getD "") ≠ ""
      · rw [if_pos hkey]
        simp only [hfind]
        rw [if_neg (by rintro ⟨h1, -⟩; exact hnr h1)]
      · rw [if_neg hkey]

/-! ### Claims about the key sender -/

/-- Claim C1: when automation is enabled, no queue entry is handled, the
minimum interval has elapsed and the target window is focused,
`evaluate_and_send` sends the keybind of the first slot in
`priority_order` that is `Ready` with a non-blank keybind; earlier
ineligible entries (missing slots, non-`Ready` slots, or `Ready` slots
with a blank keybind) are skipped without blocking, so later `Ready`
slots can still fire. -/
theorem first_eligible_priority_slot_sends
    (cfg : AppConfig) (st : KeySenderState) (env : SendEnv) (state : ActionBarState)
    (keybinds : List String) (pre post : List Nat) (i : Nat)
    (hmin : min_interval_sec cfg ≤ env.now - st.lastSendTime)
    (hwin : env.windowOk = true)
    (hpre : ∀ j ∈ pre, priority_eligible state.slots keybinds j = false)
    (hi : priority_eligible state.slots keybinds i = true)
    (hsend : env.sendOk (pyStrip (keybinds[i]?.getD "")) = true) :
    evaluate_and_send cfg st env state (pre ++ i :: post) keybinds true none =
      ⟨some ⟨pyStrip (keybinds[i]?.getD ""), "sent", none, some env.now, some i, false⟩,
        ⟨env.now⟩, false⟩ := by
  rw [evaluate_and_send_auto_none]
  unfold priority_phase
  rw [if_pos hmin, send_priority_skip_prefix st env state.slots keybinds pre _ hpre]
  obtain ⟨slot, hfind, hready, hkb⟩ := priority_eligible_elim state.slots keybinds i hi
  rw [send_priority_fire st env state.slots keybinds i post slot hfind hready hkb]
  rw [if_neg (by simp [hwin]), if_pos hsend]

/-- Claim C1 witness: the spec scenario — priority `[3, 1, 5]`, slot 3
`OnCooldown`, slot 1 `Ready` with keybind `"2"`, automation on, interval
elapsed, window focused: the gate emits `keybind "2", sent, slot 1`. -/
theorem first_eligible_priority_slot_sends_instance :
    evaluate_and_send cfgA ⟨0⟩ envT stateA [3, 1, 5] keybindsA true none =
      ⟨some ⟨"2", "sent", none, some 1, some 1, false⟩, ⟨1⟩, false⟩ := by
  have h := first_eligible_priority_slot_sends cfgA ⟨0⟩ envT stateA keybindsA
    [3] [5] 1
    (by norm_num [min_interval_sec, effective_interval_ms, cfgA, envT])
    rfl (by decide) (by decide) rfl
  have hl : ([3] ++ 1 :: [5] : List Nat) = [3, 1, 5] := rfl
  rw [hl] at h
  rw [h]
  decide

/-- Claim C4: when the priority-list candidate is eligible but the target
window is not focused, the call returns the blocked record with reason
`"window"` and the gate state is unchanged, so the candidate is retried
next tick with no interval penalty. -/
theorem window_unfocused_blocks_without_gate_update
    (cfg : AppConfig) (st : KeySenderState) (env : SendEnv) (state : ActionBarState)
    (keybinds : List String) (pre post : List Nat) (i : Nat)
    (hmin : min_interval_sec cfg ≤ env.now - st.lastSendTime)
    (hwin : env.windowOk = false)
    (hpre : ∀ j ∈ pre, priority_eligible state.slots keybinds j = false)
    (hi : priority_eligible state.slots keybinds i = true) :
    evaluate_and_send cfg st env state (pre ++ i :: post) keybinds true none =
      ⟨some ⟨pyStrip (keybinds[i]?.getD ""), "blocked", some "window", none, some i, false⟩,
        st, false⟩ := by
  rw [evaluate_and_send_auto_none]
  unfold priority_phase
  rw [if_pos hmin, send_priority_skip_prefix st env state.slots keybinds pre _ hpre]
  obtain ⟨slot, hfind, hready, hkb⟩ := priority_eligible_elim state.slots keybinds i hi
  rw [send_priority_fire st env state.slots keybinds i post slot hfind hready hkb]
  rw [if_pos hwin]

/-- Claim C4 witness: the scenario of C1 with the window unfocused: the
candidate is reported blocked and `lastSendTime` stays `0`. -/
theorem window_unfocused_blocks_without_gate_update_instance :
    evaluate_and_send cfgA ⟨0⟩ envW stateA [3, 1, 5] keybindsA true none =
      ⟨some ⟨"2", "blocked", some "window", none, some 1, false⟩, ⟨0⟩, false⟩ := by
  have h := window_unfocused_blocks_without_gate_update cfgA ⟨0⟩ envW stateA keybindsA
    [3] [5] 1
    (by norm_num [min_interval_sec, effective_interval_ms, cfgA, envW])
    rfl (by decide) (by decide)
  have hl : ([3] ++ 1 :: [5] : List Nat) = [3, 1, 5] := rfl
  rw [hl] at h
  rw [h]
  decide

/-- Claim C2: a queue entry present at the start of the tick is handled
before the priority list (the result never depends on `priority_order`):
a whitelist entry with a non-empty key is sent whatever the slot states,
subject only to the interval and window gates; a tracked entry is sent
only if its bound slot exists and is `Ready` — when the bound slot is
missing or not `Ready` the call returns no action. -/
theorem queued_override_precedes_priority
    (cfg : AppConfig) (st : KeySenderState) (env : SendEnv) (state : ActionBarState)
    (prio : List Nat) (keybinds : List String) (q : QueueEntry)
    (hmin : min_interval_sec cfg ≤ env.now - st.lastSendTime)
    (hwin : env.windowOk = true) :
    (q.source = some "whitelist" → pyStrip (q.key.getD "") ≠ "" →
      env.sendOk (pyStrip (q.key.getD "")) = true →
      evaluate_and_send cfg st env state prio keybinds true (some q) =
        ⟨some ⟨pyStrip (q.key.getD ""), "sent", none, some env.now, none, true⟩,
          ⟨env.now⟩, true⟩) ∧
    (∀ si slot, q.source = some "tracked" → q.slot_index = some si →
      pyStrip (q.key.getD "") ≠ "" →
      slots_by_index_get state.slots si = some slot → slot.state = SlotState.ready →
      env.sendOk (pyStrip (q.key.getD "")) = true →
      evaluate_and_send cfg st env state prio keybinds true (some q) =
        ⟨some ⟨pyStrip (q.key.getD ""), "sent", none, some env.now, some si, true⟩,
          ⟨env.now⟩, true⟩) ∧
    (∀ si, q.source = some "tracked" → q.slot_index = some si →
      (slots_by_index_get state.slots si = none ∨
        ∃ slot, slots_by_index_get state.slots si = some slot ∧
          slot.state ≠ SlotState.ready) →
      evaluate_and_send cfg st env state prio keybinds true (some q) =
        ⟨none, st, false⟩) := by
  refine ⟨?_, ?_, ?_⟩
  · intro hsrc hkey hsend
    rw [evaluate_and_send_auto_some]
    have hh : handle_queued st env state.slots q
        (min_interval_sec cfg ≤ env.now - st.lastSendTime) (env.windowOk = true) =
        some ⟨some ⟨pyStrip (q.key.getD ""), "sent", none, some env.now, none, true⟩,
          ⟨env.now⟩, true⟩ := by
      unfold handle_queued
      rw [if_pos ⟨hsrc, hkey⟩, if_pos ⟨hmin, hwin⟩, if_pos hsend]
    simp only [hh]
  · intro si slot hsrc hsi hkey hfind hready hsend
    rw [evaluate_and_send_auto_some]
    have hh : handle_queued st env state.slots q
        (min_interval_sec cfg ≤ env.now - st.lastSendTime) (env.windowOk = true) =
        some ⟨some ⟨pyStrip (q.key.getD ""), "sent", none, some env.now, some si, true⟩,
          ⟨env.now⟩, true⟩ := by
      unfold handle_queued
      rw [if_neg (by rintro ⟨hw, -⟩; rw [hsrc] at hw; simp at hw), if_pos hsrc]
      simp only [hsi]
      rw [if_pos hkey]
      simp only [hfind]
      rw [if_pos ⟨hready, hmin, hwin⟩, if_pos hsend]
    simp only [hh]
  · intro si hsrc hsi hbad
    rw [evaluate_and_send_auto_some]
    have hh := handle_queued_returns_noop st env state.slots q
      (min_interval_sec cfg ≤ env.now - st.lastSendTime) (env.windowOk = true)
      (Or.inr ⟨hsrc, Or.inr (Or.inr (by
        rcases hbad with hnone | ⟨slot, hfind, hnr⟩
        · exact Or.inl ⟨si, hsi, hnone⟩
        · exact Or.inr ⟨si, slot, hsi, hfind, hnr⟩))⟩)
    simp only [hh]

/-- Claim C2 witness: the spec scenario — queue entry
`{source: "whitelist", key: "r"}`, min-interval ok, window focused:
the gate sends `"r"`, reports `queued: true`, and the queue-clear
callback fires, whatever the slot states (here slot 3 on cooldown). -/
theorem queued_override_precedes_priority_instance :
    evaluate_and_send cfgA ⟨0⟩ envT stateA [3, 1, 5] keybindsA true (some queueWhite) =
      ⟨some ⟨"r", "sent", none, some 1, none, true⟩, ⟨1⟩, true⟩ := by
  have h := (queued_override_precedes_priority cfgA ⟨0⟩ envT stateA [3, 1, 5] keybindsA
      queueWhite
      (by norm_num [min_interval_sec, effective_interval_ms, cfgA, envT]) rfl).1
    rfl (by decide) rfl
  rw [h]
  decide

/-- Claim C8: a queue entry that is present but ineligible this tick — a
tracked entry whose key is blank, whose binding is absent, whose bound
slot is missing or not `Ready`, or a whitelist entry failing the interval
or window gate — makes the call return no action: the priority list is
not consulted (the result holds for every `priority_order`), the gate
state is unchanged and the queue-clear callback is not invoked. -/
theorem ineligible_queue_entry_ends_tick
    (cfg : AppConfig) (st : KeySenderState) (env : SendEnv) (state : ActionBarState)
    (prio : List Nat) (keybinds : List String) (q : QueueEntry)
    (h : (q.source = some "whitelist" ∧ pyStrip (q.key.getD "") ≠ "" ∧
           ¬(min_interval_sec cfg ≤ env.now - st.lastSendTime ∧ env.windowOk = true)) ∨
         (q.source = some "tracked" ∧
           (pyStrip (q.key.getD "") = "" ∨ q.slot_index = none ∨
            (∃ si, q.slot_index = some si ∧ slots_by_index_get state.slots si = none) ∨
            (∃ si slot, q.slot_index = some si ∧
              slots_by_index_get state.slots si = some slot ∧
              slot.state ≠ SlotState.ready)))) :
    evaluate_and_send cfg st env state prio keybinds true (some q) =
      ⟨none, st, false⟩ := by
  rw [evaluate_and_send_auto_some]
  have hh := handle_queued_returns_noop st env state.slots q
    (min_interval_sec cfg ≤ env.now - st.lastSendTime) (env.windowOk = true) h
  simp only [hh]

/-- Claim C8 witness: a tracked entry bound to slot 3, which is on
cooldown in `stateA`: no action, even though slot 1 is a ready priority
candidate. -/
theorem ineligible_queue_entry_ends_tick_instance :
    evaluate_and_send cfgA ⟨0⟩ envT stateA [3, 1, 5] keybindsA true (some queueTrack3) =
      ⟨none, ⟨0⟩, false⟩ :=
  ineligible_queue_entry_ends_tick cfgA ⟨0⟩ envT stateA [3, 1, 5] keybindsA queueTrack3
    (Or.inr ⟨rfl, Or.inr (Or.inr (Or.inr
      ⟨3, snapA 3 SlotState.onCooldown, rfl, by decide, by decide⟩))⟩)

/-- Claim C3: two `evaluate_and_send` calls on the same gate state, made
less than `min_press_interval_ms` apart, never both report `"sent"`:
every send path checks the interval gate and every successful send
records its `now` as `lastSendTime`. -/
theorem no_two_sends_within_min_interval
    (cfg : AppConfig) (st : KeySenderState) (env1 env2 : SendEnv)
    (state1 state2 : ActionBarState) (prio1 prio2 : List Nat)
    (keyb1 keyb2 : List String) (auto1 auto2 : Bool) (q1 q2 : Option QueueEntry)
    (hgap : |env2.now - env1.now| < (cfg.min_press_interval_ms : ℚ) / 1000) :
    ¬ (is_sent (evaluate_and_send cfg st env1 state1 prio1 keyb1 auto1 q1).result = true ∧
       is_sent (evaluate_and_send cfg
         (evaluate_and_send cfg st env1 state1 prio1 keyb1 auto1 q1).state
         env2 state2 prio2 keyb2 auto2 q2).result = true) := by
  rintro ⟨h1, h2⟩
  have hms : (0 : ℚ) < (cfg.min_press_interval_ms : ℚ) := by
    by_contra hn
    push_neg at hn
    have h0 : (cfg.min_press_interval_ms : ℚ) / 1000 ≤ 0 := by
      apply div_nonpos_iff.mpr
      right
      exact ⟨hn, by norm_num⟩
    exact absurd hgap (not_lt.mpr (h0.trans (abs_nonneg _)))
  have heff : effective_interval_ms cfg = cfg.min_press_interval_ms := by
    unfold effective_interval_ms
    rw [if_neg ?_]
    have : (0 : Int) < cfg.min_press_interval_ms := by exact_mod_cast hms
    omega
  rcases evaluate_and_send_outcome cfg st env1 state1 prio1 keyb1 auto1 q1 with
    ⟨-, -, hb⟩ | ⟨-, hst, -⟩
  · obtain ⟨a, har, hact⟩ := is_sent_elim _ h1
    have := hb a har
    rw [hact] at this
    simp at this
  · rw [hst] at h2
    rcases evaluate_and_send_outcome cfg ⟨env1.now⟩ env2 state2 prio2 keyb2 auto2 q2 with
      ⟨-, -, hb2⟩ | ⟨hmin2, -, -⟩
    · obtain ⟨a, har, hact⟩ := is_sent_elim _ h2
      have := hb2 a har
      rw [hact] at this
      simp at this
    · unfold min_interval_sec at hmin2
      rw [heff] at hmin2
      have habs := abs_lt.mp hgap
      simp only [KeySenderState.lastSendTime] at hmin2
      linarith [habs.2]

/-- Claim C3 witness: two ticks 50 ms apart with a 150 ms interval; the
first tick sends `"2"` (by the C1 computation shape), so the pair cannot
be doubly sent — instantiating the theorem at concrete inputs. -/
theorem no_two_sends_within_min_interval_instance :
    ¬ (is_sent (evaluate_and_send cfgA ⟨0⟩ envT stateA [3, 1, 5] keybindsA true none).result
         = true ∧
       is_sent (evaluate_and_send cfgA
         (evaluate_and_send cfgA ⟨0⟩ envT stateA [3, 1, 5] keybindsA true none).state
         envT2 stateA [3, 1, 5] keybindsA true none).result = true) :=
  no_two_sends_within_min_interval cfgA ⟨0⟩ envT envT2 stateA stateA [3, 1, 5] [3, 1, 5]
    keybindsA keybindsA true true none none
    (by
      have hd : envT2.now - envT.now = 1 / 20 := by norm_num [envT, envT2]
      rw [hd, show |(1 / 20 : ℚ)| = 1 / 20 from abs_of_nonneg (by norm_num)]
      norm_num [cfgA])

/-- Claim C5: if every external key-injection call raises, no call path
updates `lastSendTime`, the queue-clear callback never fires and nothing
is reported sent — the only action the call can still return is the
window block, which precedes the injection attempt.  Gate state is thus
unchanged on send failure, on the queued-whitelist, queued-tracked and
priority paths alike. -/
theorem send_failure_leaves_gate_unchanged
    (cfg : AppConfig) (st : KeySenderState) (env : SendEnv) (state : ActionBarState)
    (prio : List Nat) (keybinds : List String) (auto : Bool) (q : Option QueueEntry)
    (hfail : ∀ k, env.sendOk k = false) :
    (evaluate_and_send cfg st env state prio keybinds auto q).state = st ∧
    (evaluate_and_send cfg st env state prio keybinds auto q).queueCleared = false ∧
    ∀ a, (evaluate_and_send cfg st env state prio keybinds auto q).result = some a →
      a.action = "blocked" := by
  rcases evaluate_and_send_outcome cfg st env state prio keybinds auto q with
    ⟨hs, hc, hb⟩ | ⟨-, -, a, -, -, hsend⟩
  · exact ⟨hs, hc, hb⟩
  · rw [hfail a.keybind] at hsend
    cases hsend

/-- Claim C5 witness: the C1 scenario with a raising injection backend:
the gate state stays `0` and the queue is not cleared. -/
theorem send_failure_leaves_gate_unchanged_instance :
    (evaluate_and_send cfgA ⟨0⟩ envX stateA [3, 1, 5] keybindsA true none).state = ⟨0⟩ ∧
    (evaluate_and_send cfgA ⟨0⟩ envX stateA [3, 1, 5] keybindsA true none).queueCleared
      = false := by
  have h := send_failure_leaves_gate_unchanged cfgA ⟨0⟩ envX stateA [3, 1, 5] keybindsA
    true none (fun _ => rfl)
  exact ⟨h.1, h.2.1⟩

/-! ### Slot-analyzer lemmas -/

/-- `mk_slot` field equation. -/
theorem mk_slot_index (cfg : AppConfig) (i : Nat) : (mk_slot cfg i).index = i := rfl

/-- `analyze_slot` field equation for `state`. -/
theorem analyze_slot_state (cfg : AppConfig) (baselines : Nat → Option ℚ) (frame : Frame)
    (now : ℚ) (sc : SlotConfig) :
    (analyze_slot cfg baselines frame now sc).state =
      match baselines sc.index with
      | none => SlotState.unknown
      | some baseline =>
        if compute_brightness (crop_slot cfg frame sc) < baseline * cfg.brightness_threshold
        then SlotState.onCooldown
        else SlotState.ready := rfl

/-- `analyze_slot` field equation for `brightness`. -/
theorem analyze_slot_brightness (cfg : AppConfig) (baselines : Nat → Option ℚ) (frame : Frame)
    (now : ℚ) (sc : SlotConfig) :
    (analyze_slot cfg baselines frame now sc).brightness =
      compute_brightness (crop_slot cfg frame sc) := rfl

/-- The `i`-th snapshot of `analyze_frame` is the analysis of the `i`-th
layout slot. -/
theorem analyze_frame_slots_get (cfg : AppConfig) (baselines : Nat → Option ℚ)
    (frame : Frame) (now : ℚ) (i : Nat) (hi : i < cfg.slot_count.toNat) :
    (analyze_frame cfg baselines frame now).slots[i]? =
      some (analyze_slot cfg baselines frame now (mk_slot cfg i)) := by
  unfold analyze_frame slot_configs
  simp [List.getElem?_map, List.getElem?_range, hi]

/-- Pixels of a slot crop come from the frame. -/
theorem crop_slot_pixel_mem (cfg : AppConfig) (frame : Frame) (slot : SlotConfig)
    (p : Pixel) (hp : p ∈ (crop_slot cfg frame slot).flatten) :
    ∃ row ∈ frame, p ∈ row := by
  rw [List.mem_flatten] at hp
  obtain ⟨r, hr, hpr⟩ := hp
  unfold crop_slot at hr
  rw [List.mem_map] at hr
  obtain ⟨r0, hr0, rfl⟩ := hr
  exact ⟨r0, pySlice_subset _ _ _ hr0, pySlice_subset _ _ _ hpr⟩

/-- The grayscale of a valid BGR pixel is at most 255. -/
theorem gray_le_255 (p : Pixel) (h : p.b ≤ 255 ∧ p.g ≤ 255 ∧ p.r ≤ 255) :
    gray p ≤ 255 := by
  unfold gray
  have hb : 4899 * p.r + 9617 * p.g + 1868 * p.b + 8192 ≤ 4186112 := by omega
  calc (4899 * p.r + 9617 * p.g + 1868 * p.b + 8192) / 16384 ≤ 4186112 / 16384 :=
        Nat.div_le_div_right hb
    _ = 255 := by norm_num

/-- Brightness is never negative. -/
theorem compute_brightness_nonneg (img : Frame) : 0 ≤ compute_brightness img := by
  unfold compute_brightness
  have h1 : (0 : ℚ) ≤ ((img.flatten.map gray).sum : ℚ) := Nat.cast_nonneg _
  have h2 : (0 : ℚ) ≤ (img.flatten.length : ℚ) := Nat.cast_nonneg _
  exact div_nonneg (div_nonneg h1 h2) (by norm_num)

/-- Brightness of a non-empty crop of valid pixels is at most 1. -/
theorem compute_brightness_le_one (img : Frame)
    (hpx : ∀ p ∈ img.flatten, gray p ≤ 255) (hne : img.flatten.length ≠ 0) :
    compute_brightness img ≤ 1 := by
  unfold compute_brightness
  have hlen : (0 : ℚ) < (img.flatten.length : ℚ) := by
    exact_mod_cast Nat.pos_of_ne_zero hne
  have hsum : (img.flatten.map gray).sum ≤ img.flatten.length * 255 := by
    have h := List.sum_le_card_nsmul (img.flatten.map gray) 255 (by
      intro x hx
      rw [List.mem_map] at hx
      obtain ⟨p, hp, rfl⟩ := hx
      exact hpx p hp)
    rw [smul_eq_mul, List.length_map] at h
    exact h
  have hsum' : ((img.flatten.map gray).sum : ℚ) ≤ 255 * (img.flatten.length : ℚ) := by
    calc ((img.flatten.map gray).sum : ℚ) ≤ ((img.flatten.length * 255 : ℕ) : ℚ) := by
          exact_mod_cast hsum
      _ = 255 * (img.flatten.length : ℚ) := by push_cast; ring
  rw [div_le_one (by norm_num : (0 : ℚ) < 255), div_le_iff₀ hlen]
  exact hsum'

/-! ### Claims about the slot analyzer -/

/-- Claim C6: for every slot of the layout, `analyze_frame` assigns
`Unknown` exactly when the slot has no stored baseline; with a baseline it
assigns `OnCooldown` exactly when the slot crop's brightness is strictly
below `baseline * brightness_threshold`, and `Ready` otherwise. -/
theorem brightness_classifier_characterization
    (cfg : AppConfig) (baselines : Nat → Option ℚ) (frame : Frame) (now : ℚ) (i : Nat)
    (hi : i < cfg.slot_count.toNat) :
    ∃ snap, (analyze_frame cfg baselines frame now).slots[i]? = some snap ∧
      snap.index = i ∧
      snap.brightness = compute_brightness (crop_slot cfg frame (mk_slot cfg i)) ∧
      (baselines i = none → snap.state = SlotState.unknown) ∧
      (∀ bl, baselines i = some bl →
        ((snap.state = SlotState.onCooldown ↔
           compute_brightness (crop_slot cfg frame (mk_slot cfg i)) <
             bl * cfg.brightness_threshold) ∧
         (snap.state = SlotState.ready ↔
           ¬ compute_brightness (crop_slot cfg frame (mk_slot cfg i)) <
             bl * cfg.brightness_threshold))) := by
  refine ⟨_, analyze_frame_slots_get cfg baselines frame now i hi, rfl, rfl, ?_, ?_⟩
  · intro hb
    simp only [analyze_slot_state, mk_slot_index, hb]
  · intro bl hb
    simp only [analyze_slot_state, mk_slot_index, hb]
    by_cases hlt : compute_brightness (crop_slot cfg frame (mk_slot cfg i)) <
        bl * cfg.brightness_threshold
    · simp [hlt]
    · simp [hlt]

/-- Claim C6 witness: the spec scenario — 10 slots, every baseline `0.8`,
threshold `0.6`, slot 2's crop at brightness `0.3`, the others at `0.8`:
slot 2 is `OnCooldown` and (representatively) slot 0 is `Ready`. -/
theorem brightness_classifier_characterization_instance :
    (analyze_frame cfgA baselinesA frameA 0).slots[2]? =
      some (analyze_slot cfgA baselinesA frameA 0 (mk_slot cfgA 2)) ∧
    (analyze_slot cfgA baselinesA frameA 0 (mk_slot cfgA 2)).brightness = 3/10 ∧
    (analyze_slot cfgA baselinesA frameA 0 (mk_slot cfgA 2)).state = SlotState.onCooldown ∧
    (analyze_slot cfgA baselinesA frameA 0 (mk_slot cfgA 0)).brightness = 4/5 ∧
    (analyze_slot cfgA baselinesA frameA 0 (mk_slot cfgA 0)).state = SlotState.ready := by
  have hc2 : crop_slot cfgA frameA (mk_slot cfgA 2) = [[gpx 76, gpx 77]] := by decide
  have hb2 : compute_brightness (crop_slot cfgA frameA (mk_slot cfgA 2)) = 3/10 := by
    rw [hc2]
    unfold compute_brightness
    norm_num [gray, gpx]
  have hc0 : crop_slot cfgA frameA (mk_slot cfgA 0) = [[gpx 204, gpx 204]] := by decide
  have hb0 : compute_brightness (crop_slot cfgA frameA (mk_slot cfgA 0)) = 4/5 := by
    rw [hc0]
    unfold compute_brightness
    norm_num [gray, gpx]
  obtain ⟨snap2, hget2, -, hbr2, -, hsome2⟩ :=
    brightness_classifier_characterization cfgA baselinesA frameA 0 2 (by norm_num [cfgA])
  obtain ⟨snap0, hget0, -, hbr0, -, hsome0⟩ :=
    brightness_classifier_characterization cfgA baselinesA frameA 0 0 (by norm_num [cfgA])
  have he2 : snap2 = analyze_slot cfgA baselinesA frameA 0 (mk_slot cfgA 2) := by
    have hg := analyze_frame_slots_get cfgA baselinesA frameA 0 2 (by norm_num [cfgA])
    rw [hget2] at hg
    injection hg
  have he0 : snap0 = analyze_slot cfgA baselinesA frameA 0 (mk_slot cfgA 0) := by
    have hg := analyze_frame_slots_get cfgA baselinesA frameA 0 0 (by norm_num [cfgA])
    rw [hget0] at hg
    injection hg
  subst he2
  subst he0
  refine ⟨hget2, by rw [hbr2, hb2], ?_, by rw [hbr0, hb0], ?_⟩
  · refine ((hsome2 (4/5) rfl).1).mpr ?_
    rw [hb2]
    norm_num [cfgA]
  · refine ((hsome0 (4/5) rfl).2).mpr ?_
    rw [hb0]
    norm_num [cfgA]

/-- Claim C7 counterexample: `brightness_threshold` is nowhere constrained
to be at most 1; with threshold `1.5`, baseline `0.4` and a crop measured
at brightness `0.4` (not below the baseline), the state is `OnCooldown`,
refuting "brightness ≥ baseline ⟹ state ≠ OnCooldown" as stated. -/
theorem threshold_above_one_cooldown_despite_bright :
    baselinesB 0 = some (2/5) ∧ cfgB.brightness_threshold = 3/2 ∧
    (analyze_frame cfgB baselinesB frameB 0).slots[0]? =
      some (analyze_slot cfgB baselinesB frameB 0 (mk_slot cfgB 0)) ∧
    (analyze_slot cfgB baselinesB frameB 0 (mk_slot cfgB 0)).brightness = 2/5 ∧
    (analyze_slot cfgB baselinesB frameB 0 (mk_slot cfgB 0)).state =
      SlotState.onCooldown := by
  have hc : crop_slot cfgB frameB (mk_slot cfgB 0) = [[gpx 102]] := by decide
  have hb : compute_brightness (crop_slot cfgB frameB (mk_slot cfgB 0)) = 2/5 := by
    rw [hc]
    unfold compute_brightness
    norm_num [gray, gpx]
  refine ⟨rfl, rfl,
    analyze_frame_slots_get cfgB baselinesB frameB 0 0 (by norm_num [cfgB]), ?_, ?_⟩
  · rw [analyze_slot_brightness, hb]
  · simp only [analyze_slot_state, mk_slot_index,
      show baselinesB 0 = some (2/5) from rfl]
    rw [if_pos (by rw [hb]; norm_num [cfgB])]

/-- Claim C7 amended: for every slot with a stored baseline and every
configured `brightness_threshold` that is at most 1 (baselines are
nonnegative, being measured brightnesses), a crop brightness at or above
the baseline never classifies as `OnCooldown`. -/
theorem bright_slot_not_on_cooldown
    (cfg : AppConfig) (baselines : Nat → Option ℚ) (frame : Frame) (now : ℚ) (i : Nat)
    (bl : ℚ) (hi : i < cfg.slot_count.toNat)
    (hth : cfg.brightness_threshold ≤ 1) (hbl0 : 0 ≤ bl)
    (hbl : baselines i = some bl)
    (hge : bl ≤ compute_brightness (crop_slot cfg frame (mk_slot cfg i))) :
    ∀ snap, (analyze_frame cfg baselines frame now).slots[i]? = some snap →
      snap.state ≠ SlotState.onCooldown := by
  intro snap hsnap
  rw [analyze_frame_slots_get cfg baselines frame now i hi] at hsnap
  injection hsnap with hsnap
  subst hsnap
  have hnlt : ¬ compute_brightness (crop_slot cfg frame (mk_slot cfg i)) <
      bl * cfg.brightness_threshold := by
    push_neg
    calc bl * cfg.brightness_threshold ≤ bl * 1 := mul_le_mul_of_nonneg_left hth hbl0
      _ = bl := mul_one bl
      _ ≤ _ := hge
  rw [analyze_slot_state]
  simp only [mk_slot_index, hbl]
  rw [if_neg hnlt]
  decide

/-- Claim C7 amended witness: slot 0 of the C6 scenario (baseline `0.8`,
threshold `0.6 ≤ 1`, brightness `0.8 ≥ 0.8`) is not `OnCooldown`. -/
theorem bright_slot_not_on_cooldown_instance :
    (analyze_slot cfgA baselinesA frameA 0 (mk_slot cfgA 0)).state ≠
      SlotState.onCooldown := by
  have hc0 : crop_slot cfgA frameA (mk_slot cfgA 0) = [[gpx 204, gpx 204]] := by decide
  exact bright_slot_not_on_cooldown cfgA baselinesA frameA 0 0 (4/5)
    (by norm_num [cfgA]) (by norm_num [cfgA]) (by norm_num) rfl
    (by
      rw [hc0]
      unfold compute_brightness
      norm_num [gray, gpx])
    (analyze_slot cfgA baselinesA frameA 0 (mk_slot cfgA 0))
    (analyze_frame_slots_get cfgA baselinesA frameA 0 0 (by norm_num [cfgA]))

/-- Claim C10: on a frame large enough that every layout crop is
non-empty (and whose pixels are valid `uint8` BGR), `analyze_frame`
returns one snapshot per layout slot — exactly `slot_count` of them, the
`i`-th carrying index `i` — each with a state among
`Unknown`/`Ready`/`OnCooldown`, a brightness in `[0, 1]`, and the
`ActionBarState`'s own timestamp.  (The source reads but never writes
`frame` and `_baselines`; the embedding takes them as read-only inputs.) -/
theorem analyze_frame_shape_invariants
    (cfg : AppConfig) (baselines : Nat → Option ℚ) (frame : Frame) (now : ℚ)
    (hcount : 0 < cfg.slot_count)
    (hpix : ∀ row ∈ frame, ∀ p ∈ row, p.b ≤ 255 ∧ p.g ≤ 255 ∧ p.r ≤ 255)
    (hfit : ∀ sc ∈ slot_configs cfg, (crop_slot cfg frame sc).flatten.length ≠ 0) :
    ((analyze_frame cfg baselines frame now).slots.length : Int) = cfg.slot_count ∧
    (analyze_frame cfg baselines frame now).timestamp = now ∧
    ∀ (i : Nat) (snap : SlotSnapshot),
      (analyze_frame cfg baselines frame now).slots[i]? = some snap →
      snap.index = i ∧ snap.timestamp = now ∧
      0 ≤ snap.brightness ∧ snap.brightness ≤ 1 ∧
      (snap.state = SlotState.unknown ∨ snap.state = SlotState.ready ∨
        snap.state = SlotState.onCooldown) := by
  have hlen : (analyze_frame cfg baselines frame now).slots.length = cfg.slot_count.toNat := by
    simp [analyze_frame, slot_configs]
  refine ⟨by rw [hlen]; exact Int.toNat_of_nonneg (le_of_lt hcount), rfl, ?_⟩
  intro i snap hsnap
  have hi : i < cfg.slot_count.toNat := by
    by_contra hge
    push_neg at hge
    have hnone : (analyze_frame cfg baselines frame now).slots[i]? = none := by
      apply List.getElem?_eq_none
      rw [hlen]
      exact hge
    rw [hnone] at hsnap
    cases hsnap
  rw [analyze_frame_slots_get cfg baselines frame now i hi] at hsnap
  injection hsnap with hsnap
  subst hsnap
  have hmem : mk_slot cfg i ∈ slot_configs cfg := by
    unfold slot_configs
    exact List.mem_map_of_mem _ (List.mem_range.mpr hi)
  refine ⟨rfl, rfl, compute_brightness_nonneg _, ?_, ?_⟩
  · apply compute_brightness_le_one
    · intro p hp
      obtain ⟨row, hrow, hprow⟩ := crop_slot_pixel_mem cfg frame (mk_slot cfg i) p hp
      exact gray_le_255 p (hpix row hrow p hprow)
    · exact hfit _ hmem
  · rw [analyze_slot_state]
    cases hb : baselines (mk_slot cfg i).index with
    | none => simp
    | some bl =>
      by_cases hlt : compute_brightness (crop_slot cfg frame (mk_slot cfg i)) <
          bl * cfg.brightness_threshold
      · simp [hlt]
      · simp [hlt]

/-- Claim C10 witness: the C6 scenario frame yields 10 snapshots; the
slot-2 snapshot carries index 2, the shared timestamp, and a brightness
in `[0, 1]`. -/
theorem analyze_frame_shape_invariants_instance :
    ((analyze_frame cfgA baselinesA frameA 0).slots.length : Int) = 10 ∧
    (analyze_slot cfgA baselinesA frameA 0 (mk_slot cfgA 2)).index = 2 ∧
    (analyze_slot cfgA baselinesA frameA 0 (mk_slot cfgA 2)).timestamp = 0 ∧
    0 ≤ (analyze_slot cfgA baselinesA frameA 0 (mk_slot cfgA 2)).brightness ∧
    (analyze_slot cfgA baselinesA frameA 0 (mk_slot cfgA 2)).brightness ≤ 1 := by
  obtain ⟨hlen, -, hall⟩ := analyze_frame_shape_invariants cfgA baselinesA frameA 0
    (by norm_num [cfgA]) (by decide) (by decide)
  obtain ⟨h1, h2, h3, h4, -⟩ := hall 2 _
    (analyze_frame_slots_get cfgA baselinesA frameA 0 2 (by norm_num [cfgA]))
  exact ⟨hlen, h1, h2, h3, h4⟩

/-! ### Capture-plan lemmas -/

/-- Containment is reflexive. -/
theorem rect_contains_self (r : Rect) : rect_contains r r :=
  ⟨le_refl _, le_refl _, le_refl _, le_refl _⟩

/-- Containment is transitive. -/
theorem rect_contains_trans {a b c : Rect} (h1 : rect_contains a b)
    (h2 : rect_contains b c) : rect_contains a c :=
  ⟨le_trans h1.1 h2.1, le_trans h1.2.1 h2.2.1,
    le_trans h2.2.2.1 h1.2.2.1, le_trans h2.2.2.2 h1.2.2.2⟩

/-- The union contains its left argument. -/
theorem union_rect_contains_left (a b : Rect) : rect_contains (union_rect a b) a :=
  ⟨min_le_left _ _, min_le_left _ _, le_max_left _ _, le_max_left _ _⟩

/-- The union contains its right argument. -/
theorem union_rect_contains_right (a b : Rect) : rect_contains (union_rect a b) b :=
  ⟨min_le_right _ _, min_le_right _ _, le_max_right _ _, le_max_right _ _⟩

/-- The union is the least rectangle over both arguments. -/
theorem union_rect_least {a b R : Rect} (ha : rect_contains R a)
    (hb : rect_contains R b) : rect_contains R (union_rect a b) :=
  ⟨le_min ha.1 hb.1, le_min ha.2.1 hb.2.1,
    max_le ha.2.2.1 hb.2.2.1, max_le ha.2.2.2 hb.2.2.2⟩

/-- The union fold contains its starting rectangle. -/
theorem foldl_union_contains_init (rs : List Rect) (r : Rect) :
    rect_contains (rs.foldl union_rect r) r := by
  induction rs generalizing r with
  | nil => exact rect_contains_self r
  | cons s rs ih =>
    exact rect_contains_trans (ih (union_rect r s)) (union_rect_contains_left r s)

/-- The union fold contains every list element. -/
theorem foldl_union_contains_mem (rs : List Rect) (r s : Rect) (hs : s ∈ rs) :
    rect_contains (rs.foldl union_rect r) s := by
  induction rs generalizing r with
  | nil => cases hs
  | cons t ts ih =>
    rcases List.mem_cons.mp hs with rfl | hmem
    · exact rect_contains_trans (foldl_union_contains_init ts (union_rect r s))
        (union_rect_contains_right r s)
    · exact ih (union_rect r t) hmem

/-- The union fold is least among rectangles covering the start and every
element. -/
theorem foldl_union_least (rs : List Rect) (r R : Rect) (hr : rect_contains R r)
    (hs : ∀ s ∈ rs, rect_contains R s) : rect_contains R (rs.foldl union_rect r) := by
  induction rs generalizing r with
  | nil => exact hr
  | cons t ts ih =>
    exact ih (union_rect r t) (union_rect_least hr (hs t (by simp)))
      (fun s hmem => hs s (by simp [hmem]))

/-- The conditional buff-ROI fold of `_capture_plan` equals the union fold
over the filtered, positioned ROI rectangles. -/
theorem buff_fold_eq_union (ab : BoundingBox) (l : List BuffRoi) (r : Rect) :
    l.foldl
      (fun acc roi =>
        if roi.enabled = true ∧ 1 < roi.width ∧ 1 < roi.height then
          ⟨min acc.left (ab.left + roi.left), min acc.top (ab.top + roi.top),
            max acc.right (ab.left + roi.left + roi.width),
            max acc.bottom (ab.top + roi.top + roi.height)⟩
        else acc) r =
    ((l.filter (fun b => b.enabled && decide (1 < b.width) && decide (1 < b.height))).map
      (fun b => roi_rect ab b.left b.top b.width b.height)).foldl union_rect r := by
  induction l generalizing r with
  | nil => rfl
  | cons b l ih =>
    by_cases hb : b.enabled = true ∧ 1 < b.width ∧ 1 < b.height
    · rw [List.foldl_cons, if_pos hb,
        List.filter_cons_of_pos (by simp [hb.1, hb.2.1, hb.2.2]),
        List.map_cons, List.foldl_cons]
      exact ih _
    · rw [List.foldl_cons, if_neg hb,
        List.filter_cons_of_neg (by
          simp only [Bool.and_eq_true, decide_eq_true_eq]
          exact fun h => hb ⟨h.1.1, h.1.2, h.2⟩),
        ]
      exact ih r

/-- `_capture_plan` is the clamp of the minimal cover, and the returned
action origin is the action-bar corner minus the capture corner. -/
theorem capture_plan_eq (cfg : AppConfig) (mw mh : Int) :
    capture_plan cfg mw mh =
      (plan_bbox (clamp_rect mw mh (minimal_cover cfg)),
        cfg.bounding_box.left - (clamp_rect mw mh (minimal_cover cfg)).left,
        cfg.bounding_box.top - (clamp_rect mw mh (minimal_cover cfg)).top) := by
  by_cases hcast : cfg.cast_bar_region.enabled = true ∧ 1 < cfg.cast_bar_region.width ∧
      1 < cfg.cast_bar_region.height
  · simp only [capture_plan, minimal_cover, if_pos hcast,
      buff_fold_eq_union cfg.bounding_box cfg.buff_rois, List.foldl_append]
    rfl
  · simp only [capture_plan, minimal_cover, if_neg hcast,
      buff_fold_eq_union cfg.bounding_box cfg.buff_rois, List.foldl_append]
    rfl

/-! ### Claim about the capture plan -/

/-- Claim C9: the capture plan is the minimal axis-aligned rectangle
covering the action-bar box, the enabled cast-bar region and every
enabled buff ROI larger than 1×1 (positioned relative to the action-bar
origin), clamped to the monitor; the returned origin is the action-bar
corner minus the capture corner; it is minimal in that it contains every
included region and is contained in any rectangle that does; and when the
cover already lies inside the monitor, no clamping happens and every
included region lies inside the returned rectangle. -/
theorem capture_plan_is_clamped_minimal_cover
    (cfg : AppConfig) (mw mh : Int)
    (hw : 1 ≤ cfg.bounding_box.width) (hh : 1 ≤ cfg.bounding_box.height) :
    (capture_plan cfg mw mh =
      (plan_bbox (clamp_rect mw mh (minimal_cover cfg)),
        cfg.bounding_box.left - (clamp_rect mw mh (minimal_cover cfg)).left,
        cfg.bounding_box.top - (clamp_rect mw mh (minimal_cover cfg)).top)) ∧
    (∀ s ∈ included_rects cfg, rect_contains (minimal_cover cfg) s) ∧
    (∀ R, (∀ s ∈ included_rects cfg, rect_contains R s) →
      rect_contains R (minimal_cover cfg)) ∧
    (0 ≤ (minimal_cover cfg).left → 0 ≤ (minimal_cover cfg).top →
      (minimal_cover cfg).right ≤ mw → (minimal_cover cfg).bottom ≤ mh →
      (capture_plan cfg mw mh).1 =
        ⟨(minimal_cover cfg).top, (minimal_cover cfg).left,
          (minimal_cover cfg).right - (minimal_cover cfg).left,
          (minimal_cover cfg).bottom - (minimal_cover cfg).top⟩ ∧
      ∀ s ∈ included_rects cfg,
        rect_contains
          ⟨(capture_plan cfg mw mh).1.left, (capture_plan cfg mw mh).1.top,
            (capture_plan cfg mw mh).1.left + (capture_plan cfg mw mh).1.width,
            (capture_plan cfg mw mh).1.top + (capture_plan cfg mw mh).1.height⟩ s) := by
  have hcontains : ∀ s ∈ included_rects cfg, rect_contains (minimal_cover cfg) s := by
    intro s hs
    unfold included_rects at hs
    rcases List.mem_cons.mp hs with rfl | hmem
    · exact foldl_union_contains_init _ _
    · exact foldl_union_contains_mem _ _ _ hmem
  have hbase : rect_contains (minimal_cover cfg) (action_rect cfg.bounding_box) :=
    hcontains _ (by unfold included_rects; simp)
  refine ⟨capture_plan_eq cfg mw mh, hcontains, ?_, ?_⟩
  · intro R hR
    apply foldl_union_least
    · exact hR _ (by unfold included_rects; simp)
    · intro s hmem
      exact hR s (by unfold included_rects; simp [hmem])
  · intro h0L h0T hRmw hBmh
    have hlr : (minimal_cover cfg).left + 1 ≤ (minimal_cover cfg).right := by
      have h1 : (minimal_cover cfg).left ≤ cfg.bounding_box.left := hbase.1
      have h2 : cfg.bounding_box.left + cfg.bounding_box.width ≤
          (minimal_cover cfg).right := hbase.2.2.1
      omega
    have htb : (minimal_cover cfg).top + 1 ≤ (minimal_cover cfg).bottom := by
      have h1 : (minimal_cover cfg).top ≤ cfg.bounding_box.top := hbase.2.1
      have h2 : cfg.bounding_box.top + cfg.bounding_box.height ≤
          (minimal_cover cfg).bottom := hbase.2.2.2
      omega
    have hclamp : clamp_rect mw mh (minimal_cover cfg) = minimal_cover cfg := by
      unfold clamp_rect
      have hL : max 0 (min (minimal_cover cfg).left (mw - 1)) = (minimal_cover cfg).left := by
        omega
      have hT : max 0 (min (minimal_cover cfg).top (mh - 1)) = (minimal_cover cfg).top := by
        omega
      rw [hL, hT]
      have hR : max ((minimal_cover cfg).left + 1) (min (minimal_cover cfg).right mw) =
          (minimal_cover cfg).right := by omega
      have hB : max ((minimal_cover cfg).top + 1) (min (minimal_cover cfg).bottom mh) =
          (minimal_cover cfg).bottom := by omega
      rw [hR, hB]
    have hbox : (capture_plan cfg mw mh).1 =
        ⟨(minimal_cover cfg).top, (minimal_cover cfg).left,
          (minimal_cover cfg).right - (minimal_cover cfg).left,
          (minimal_cover cfg).bottom - (minimal_cover cfg).top⟩ := by
      rw [capture_plan_eq cfg mw mh]
      simp only [hclamp]
      unfold plan_bbox
      have h1 : max 1 ((minimal_cover cfg).right - (minimal_cover cfg).left) =
          (minimal_cover cfg).right - (minimal_cover cfg).left := by omega
      have h2 : max 1 ((minimal_cover cfg).bottom - (minimal_cover cfg).top) =
          (minimal_cover cfg).bottom - (minimal_cover cfg).top := by omega
      rw [h1, h2]
    refine ⟨hbox, ?_⟩
    intro s hs
    rw [hbox]
    have : (⟨(minimal_cover cfg).left, (minimal_cover cfg).top,
        (minimal_cover cfg).left + ((minimal_cover cfg).right - (minimal_cover cfg).left),
        (minimal_cover cfg).top + ((minimal_cover cfg).bottom - (minimal_cover cfg).top)⟩
          : Rect) = minimal_cover cfg := by
      have h1 : (minimal_cover cfg).left +
          ((minimal_cover cfg).right - (minimal_cover cfg).left) =
          (minimal_cover cfg).right := by ring
      have h2 : (minimal_cover cfg).top +
          ((minimal_cover cfg).bottom - (minimal_cover cfg).top) =
          (minimal_cover cfg).bottom := by ring
      rw [h1, h2]
    rw [this]
    exact hcontains s hs

/-- Claim C9 witness: a configuration with an enabled 120×10 cast bar
region reaching left of the action bar and one enabled 30×30 buff ROI
above and right of it (a second disabled ROI and a 1-pixel-wide ROI are
excluded), on a 1920×1080 monitor. -/
theorem capture_plan_is_clamped_minimal_cover_instance :
    capture_plan cfgC 1920 1080 =
      (plan_bbox (clamp_rect 1920 1080 (minimal_cover cfgC)),
        cfgC.bounding_box.left - (clamp_rect 1920 1080 (minimal_cover cfgC)).left,
        cfgC.bounding_box.top - (clamp_rect 1920 1080 (minimal_cover cfgC)).top) :=
  (capture_plan_is_clamped_minimal_cover cfgC 1920 1080
    (by norm_num [cfgC]) (by norm_num [cfgC])).1

end Autommo
